import Mathlib

/-!
Verification of the FPS-Trainer session simulation engine.

The definitions below are a shallow embedding of the TypeScript source
(`src/src/AimTrainer.tsx`, the Convex mutation in `src/unnamed/part_000`,
and `src/convex/schema.ts`).  JavaScript numbers are modelled as
exact rationals (`ℚ`); decimal literals of the source (0.25, 0.6, 1.5, 0.7,
0.3) are taken at their written value.  `Math.floor` becomes `Int.floor`,
and the integer millisecond timestamps become `ℕ`.

`Math.sqrt` and `Math.atan2` are real-valued; the engine only ever uses
`Math.sqrt` outputs in order comparisons against non-negative radii, so the
embedding performs those comparisons on squared distances (which is
equivalent, since squaring is monotone on non-negative reals — see the
bridge lemmas `getHitZoneSq_eq_getHitZone` and `sq_le_sq_iff_of_nonneg'`
below), while the raw `sqrt`/`atan2` values that flow into display fields
are represented by explicit function parameters (`sqrtQ`, `atan2deg`).
-/

/-- Game modes: `'classic' | 'speed' | 'precision'`. -/
inductive GameMode
  | classic
  | speed
  | precision
deriving DecidableEq, Repr

/-- Source `GameSettings` from the source: targetSize (px), targetSpeed (ms,
called "Target Duration" in the UI), gameTime (s), plus audio settings. -/
structure GameSettings where
  targetSize : ℚ
  targetSpeed : ℤ
  gameTime : ℕ
  soundEnabled : Bool
  soundVolume : ℚ
deriving DecidableEq, Repr

/-- Source `Target` from the source.  `velocityX`/`velocityY` are the optional
fields of the interface; `id` is a JS number (`Date.now() + Math.random()`). -/
structure Target where
  id : ℚ
  x : ℚ
  y : ℚ
  size : ℚ
  createdAt : ℕ
  velocityX : Option ℚ
  velocityY : Option ℚ
  shrinking : Bool
deriving DecidableEq, Repr

/-- The three hit zones. -/
inductive HitZone
  | center
  | ring
  | edge
deriving DecidableEq, Repr

/-- Direction classification of a shot: `'overshoot' | 'undershoot' | 'hit'`. -/
inductive ShotDirection
  | overshoot
  | undershoot
  | hit
deriving DecidableEq, Repr

/-- Source `ShotAnalysis` from the source (distance, direction, angle in degrees).
`distance` and `angle` hold the `Math.sqrt` / `Math.atan2` values, which the
embedding receives through the `sqrtQ` / `atan2deg` parameters. -/
structure ShotAnalysis where
  distance : ℚ
  direction : ShotDirection
  angle : ℚ
deriving DecidableEq, Repr

/-- Source `GameStats` from the source. -/
structure GameStats where
  score : ℤ
  targetsHit : ℕ
  targetsMissed : ℕ
  reactionTimes : List ℕ
  startTime : ℕ
  centerHits : ℕ
  ringHits : ℕ
  edgeHits : ℕ
  totalShots : ℕ
  overshoots : ℕ
  undershoots : ℕ
  averageMissDistance : ℚ
deriving DecidableEq, Repr

/-- The all-zero stats installed by `startGame`. -/
def initialStats (startTime : ℕ) : GameStats :=
  { score := 0, targetsHit := 0, targetsMissed := 0, reactionTimes := [],
    startTime := startTime, centerHits := 0, ringHits := 0, edgeHits := 0,
    totalShots := 0, overshoots := 0, undershoots := 0, averageMissDistance := 0 }

/-- Source `getHitZone(distance, targetSize)`: radius = size/2; distance ≤ 0.25·radius
→ center; distance ≤ 0.6·radius → ring; else edge. -/
def getHitZone (distance targetSize : ℚ) : HitZone :=
  let radius := targetSize / 2
  if distance ≤ radius * (1/4) then HitZone.center
  else if distance ≤ radius * (3/5) then HitZone.ring
  else HitZone.edge

/-- Source `getScoreMultiplier`: center 2.0, ring 1.5, edge 1.0. -/
def getScoreMultiplier (hitZone : HitZone) : ℚ :=
  match hitZone with
  | HitZone.center => 2
  | HitZone.ring => 3/2
  | HitZone.edge => 1

/-- Source `getHitZone` evaluated on a squared distance, used where the source
compares `Math.sqrt(dx²+dy²)` against the zone thresholds. -/
def getHitZoneSq (dSq targetSize : ℚ) : HitZone :=
  let radius := targetSize / 2
  if dSq ≤ (radius * (1/4))^2 then HitZone.center
  else if dSq ≤ (radius * (3/5))^2 then HitZone.ring
  else HitZone.edge

lemma sq_le_sq_iff_of_nonneg' {a b : ℚ} (ha : 0 ≤ a) (hb : 0 ≤ b) :
    a^2 ≤ b^2 ↔ a ≤ b := by
  constructor
  · intro h
    nlinarith
  · intro h
    nlinarith

/-- Bridge: classifying a squared distance agrees with classifying the
distance itself, for non-negative distance and size. -/
lemma getHitZoneSq_eq_getHitZone {d s : ℚ} (hd : 0 ≤ d) (hs : 0 ≤ s) :
    getHitZoneSq (d^2) s = getHitZone d s := by
  unfold getHitZoneSq getHitZone
  have h1 : (0:ℚ) ≤ s / 2 * (1/4) := by positivity
  have h2 : (0:ℚ) ≤ s / 2 * (3/5) := by positivity
  simp only [sq_le_sq_iff_of_nonneg' hd h1, sq_le_sq_iff_of_nonneg' hd h2]

/-- JavaScript truthiness of an optional numeric field (`undefined` and `0`
are falsy), used by `target.velocityX || target.velocityY`. -/
def jsTruthy (o : Option ℚ) : Bool :=
  match o with
  | none => false
  | some v => decide (v ≠ 0)

/-- Source `getScoreForMode(mode, reactionTime, target)` (base score before the zone
multiplier).  `Math.floor(reactionTime / k)` on a non-negative integer
reaction time is ℕ division. -/
def getScoreForMode (mode : GameMode) (settingsTargetSize : ℚ)
    (reactionTime : ℕ) (t : Target) : ℚ :=
  match mode with
  | GameMode.speed =>
      let speedBonus : ℚ := if jsTruthy t.velocityX || jsTruthy t.velocityY then 50 else 0
      ((max (150 - ((reactionTime / 8 : ℕ) : ℤ)) 20 : ℤ) : ℚ) + speedBonus
  | GameMode.precision =>
      let sizeBonus : ℚ := max 0 ((settingsTargetSize - t.size) * 5)
      let precisionBonus : ℚ := if reactionTime < 300 then 300
        else if reactionTime < 600 then 200 else 100
      precisionBonus + sizeBonus
  | GameMode.classic =>
      ((max (150 - ((reactionTime / 20 : ℕ) : ℤ)) 25 : ℤ) : ℚ)

/-- The awarded score of a hit:
`Math.floor(getScoreForMode(gameMode, reactionTime, target) * scoreMultiplier)`. -/
def awardedScore (mode : GameMode) (settingsTargetSize : ℚ)
    (reactionTime : ℕ) (t : Target) (zone : HitZone) : ℤ :=
  Int.floor (getScoreForMode mode settingsTargetSize reactionTime t * getScoreMultiplier zone)

/-- Squared Euclidean distance from a click point to a target's center
(the source takes `Math.sqrt` of this before comparing; the embedding
compares squares instead, which is equivalent for non-negative radii). -/
def distSq (cx cy : ℚ) (t : Target) : ℚ :=
  (cx - t.x)^2 + (cy - t.y)^2

/-- The per-target hit test of `handleCanvasClick`'s filter:
`distance <= target.size / 2`, in squared form. -/
def hitTest (cx cy : ℚ) (t : Target) : Bool :=
  decide (distSq cx cy t ≤ (t.size / 2)^2)

/-- The closest-target scan of `analyzeShot`: starts from `targets[0]` and
replaces the best candidate whenever a strictly smaller distance is found
(so the first target attaining the minimum wins).  Distances are compared
in squared form. -/
def findClosest (cx cy : ℚ) : List Target → Target × ℚ → Target × ℚ
  | [], best => best
  | t :: ts, best =>
      let d := distSq cx cy t
      if d < best.2 then findClosest cx cy ts (t, d)
      else findClosest cx cy ts best

/-- Source `analyzeShot(clickX, clickY, targets)`.  `sqrtQ` stands for `Math.sqrt`
(applied to the squared minimum distance to produce the reported distance)
and `atan2deg` for `Math.atan2(·, ·) * 180 / Math.PI`. -/
def analyzeShot (sqrtQ : ℚ → ℚ) (atan2deg : ℚ → ℚ → ℚ)
    (cx cy : ℚ) (targets : List Target) : ShotAnalysis :=
  match targets with
  | [] => { distance := 0, direction := ShotDirection.hit, angle := 0 }
  | t :: ts =>
      let best := findClosest cx cy (t :: ts) (t, distSq cx cy t)
      let closest := best.1
      let minDistSq := best.2
      let angle := atan2deg (cy - closest.y) (cx - closest.x)
      let targetRadius := closest.size / 2
      if minDistSq ≤ targetRadius^2 then
        { distance := sqrtQ minDistSq, direction := ShotDirection.hit, angle := angle }
      else
        { distance := sqrtQ minDistSq,
          direction := if minDistSq > (targetRadius * (3/2))^2
            then ShotDirection.overshoot else ShotDirection.undershoot,
          angle := angle }

/-- JavaScript truncating integer part (`a % n` in JS truncates toward 0). -/
def jsTrunc (a : ℚ) : ℤ :=
  if 0 ≤ a then Int.floor a else Int.ceil a

/-- JavaScript remainder `a % n`. -/
def jsMod (a n : ℚ) : ℚ :=
  a - n * (jsTrunc (a / n) : ℚ)

/-- Source `getDirectionText(angle)`: the 8-way compass label of a bearing. -/
def getDirectionText (angle : ℚ) : String :=
  let normalizedAngle := jsMod (jsMod angle 360 + 360) 360
  if 337.5 ≤ normalizedAngle ∨ normalizedAngle < 22.5 then "right"
  else if 22.5 ≤ normalizedAngle ∧ normalizedAngle < 67.5 then "bottom-right"
  else if 67.5 ≤ normalizedAngle ∧ normalizedAngle < 112.5 then "bottom"
  else if 112.5 ≤ normalizedAngle ∧ normalizedAngle < 157.5 then "bottom-left"
  else if 157.5 ≤ normalizedAngle ∧ normalizedAngle < 202.5 then "left"
  else if 202.5 ≤ normalizedAngle ∧ normalizedAngle < 247.5 then "top-left"
  else if 247.5 ≤ normalizedAngle ∧ normalizedAngle < 292.5 then "top"
  else "top-right"

/-- Source `HitEffect` (the random `id` tag, unused by any logic, is omitted). -/
structure HitEffect where
  x : ℚ
  y : ℚ
  createdAt : ℕ
  type : HitZone
  score : ℤ
deriving DecidableEq, Repr

/-- Source `MissEffect` (the random `id` tag, unused by any logic, is omitted). -/
structure MissEffect where
  x : ℚ
  y : ℚ
  createdAt : ℕ
  distance : ℚ
  direction : String
deriving DecidableEq, Repr

/-- The `setGameStats` updater run for each hit target
(lines 469-491 of the source). -/
def hitUpdate (stats : GameStats) (score : ℤ) (reactionTime : ℕ)
    (zone : HitZone) : GameStats :=
  { stats with
    score := stats.score + score,
    targetsHit := stats.targetsHit + 1,
    reactionTimes := stats.reactionTimes ++ [reactionTime],
    totalShots := stats.totalShots + 1,
    centerHits := if zone = HitZone.center then stats.centerHits + 1 else stats.centerHits,
    ringHits := if zone = HitZone.ring then stats.ringHits + 1 else stats.ringHits,
    edgeHits := if zone = HitZone.edge then stats.edgeHits + 1 else stats.edgeHits }

/-- The `setGameStats` updater of the miss branch (lines 514-525): the
penalty is 2 in precision mode and 1 otherwise, and the running mean is
recomputed from the `targetsMissed` count *before* the penalty increment. -/
def missUpdate (mode : GameMode) (stats : GameStats)
    (distance : ℚ) (direction : ShotDirection) : GameStats :=
  let penalty : ℕ := if mode = GameMode.precision then 2 else 1
  let newMissDistance :=
    (stats.averageMissDistance * (stats.targetsMissed : ℚ) + distance) /
      ((stats.targetsMissed : ℚ) + 1)
  { stats with
    targetsMissed := stats.targetsMissed + penalty,
    totalShots := stats.totalShots + 1,
    overshoots := if direction = ShotDirection.overshoot
      then stats.overshoots + 1 else stats.overshoots,
    undershoots := if direction = ShotDirection.undershoot
      then stats.undershoots + 1 else stats.undershoots,
    averageMissDistance := newMissDistance }

/-- The `setGameStats` updater of the expiry callback (lines 407-410):
a passive expiry adds exactly 1 to `targetsMissed` in every mode. -/
def expiryUpdate (stats : GameStats) : GameStats :=
  { stats with targetsMissed := stats.targetsMissed + 1 }

/-- The `setTimeout` expiry callback (lines 403-414): remove the target by
id; if something was actually removed, count one passive miss. -/
def expireTarget (targetId : ℚ) (targets : List Target) (stats : GameStats) :
    List Target × GameStats :=
  let filtered := targets.filter (fun t => decide (t.id ≠ targetId))
  if filtered.length < targets.length then (filtered, expiryUpdate stats)
  else (targets, stats)

/-- Accumulator of the click filter pass over the live targets. -/
structure ClickAcc where
  kept : List Target
  stats : GameStats
  hitEffects : List HitEffect
  hitTarget : Bool
deriving DecidableEq, Repr

/-- The `prev.filter(...)` pass of `handleCanvasClick` (lines 443-499):
walks the live targets in order; each target whose own radius covers the
click is removed, scored (its reaction time, zone, and awarded score are
computed from that target), a hit effect is pushed, and the stats updater
runs; every other target is kept. -/
def processTargets (mode : GameMode) (settingsTargetSize : ℚ) (now : ℕ)
    (cx cy : ℚ) : List Target → GameStats → List HitEffect → ClickAcc
  | [], stats, effs => { kept := [], stats := stats, hitEffects := effs, hitTarget := false }
  | t :: ts, stats, effs =>
      if hitTest cx cy t then
        let reactionTime := now - t.createdAt
        let zone := getHitZoneSq (distSq cx cy t) t.size
        let score := awardedScore mode settingsTargetSize reactionTime t zone
        let stats1 := hitUpdate stats score reactionTime zone
        let effs1 := effs ++ [{ x := cx, y := cy, createdAt := now, type := zone, score := score }]
        let rest := processTargets mode settingsTargetSize now cx cy ts stats1 effs1
        { rest with hitTarget := true }
      else
        let rest := processTargets mode settingsTargetSize now cx cy ts stats effs
        { rest with kept := t :: rest.kept }

/-- The engine state touched by a click. -/
structure EngineState where
  isPlaying : Bool
  targets : List Target
  stats : GameStats
  hitEffects : List HitEffect
  missEffects : List MissEffect
  lastShotAnalysis : Option ShotAnalysis
deriving DecidableEq, Repr

/-- Source `handleCanvasClick` (lines 425-527): ignore clicks while not playing;
otherwise run `analyzeShot`, remove/score every target covering the click,
and when no target was hit, apply the miss updater and push a miss effect
carrying the analyzer's distance and compass direction. -/
def handleCanvasClick (sqrtQ : ℚ → ℚ) (atan2deg : ℚ → ℚ → ℚ)
    (mode : GameMode) (settingsTargetSize : ℚ) (now : ℕ)
    (cx cy : ℚ) (st : EngineState) : EngineState :=
  if !st.isPlaying then st
  else
    let shotAnalysis := analyzeShot sqrtQ atan2deg cx cy st.targets
    let acc := processTargets mode settingsTargetSize now cx cy st.targets st.stats st.hitEffects
    if acc.hitTarget then
      { st with targets := acc.kept, stats := acc.stats,
                hitEffects := acc.hitEffects, lastShotAnalysis := some shotAnalysis }
    else
      { st with targets := acc.kept,
                stats := missUpdate mode acc.stats shotAnalysis.distance shotAnalysis.direction,
                hitEffects := acc.hitEffects,
                missEffects := st.missEffects ++
                  [{ x := cx, y := cy, createdAt := now,
                     distance := shotAnalysis.distance,
                     direction := getDirectionText shotAnalysis.angle }],
                lastShotAnalysis := some shotAnalysis }

/-- Logical canvas size. -/
structure CanvasBounds where
  width : ℚ
  height : ℚ
deriving DecidableEq, Repr

/-- Source `getTargetLifetime()`: speed `max(800, targetSpeed − 500)`,
precision `targetSpeed + 1000`, classic `targetSpeed`. -/
def getTargetLifetime (mode : GameMode) (targetSpeed : ℤ) : ℤ :=
  match mode with
  | GameMode.speed => max 800 (targetSpeed - 500)
  | GameMode.precision => targetSpeed + 1000
  | GameMode.classic => targetSpeed

/-- Source `spawnTarget()` (lines 370-415).  The `Math.random()` draws are passed
in as `rId, rX, rY, rSpeed, rJitter ∈ [0,1)`; `cA`/`sA` stand for
`Math.cos(angle)`/`Math.sin(angle)` of the random heading
`angle = rAngle·2π` (so `cA² + sA² = 1`). -/
def spawnTarget (mode : GameMode) (settings : GameSettings) (now : ℕ)
    (bounds : CanvasBounds) (rId rX rY rSpeed rJitter cA sA : ℚ) : Target :=
  let margin := settings.targetSize
  let base : Target :=
    { id := (now : ℚ) + rId,
      x := margin + rX * (bounds.width - 2 * margin),
      y := margin + rY * (bounds.height - 2 * margin),
      size := settings.targetSize,
      createdAt := now,
      velocityX := none, velocityY := none, shrinking := false }
  match mode with
  | GameMode.speed =>
      let speed := 50 + rSpeed * 100
      { base with
        velocityX := some (cA * speed),
        velocityY := some (sA * speed),
        size := max 20 (settings.targetSize - 15) }
  | GameMode.precision =>
      { base with shrinking := true, size := settings.targetSize + 20 }
  | GameMode.classic =>
      { base with size := settings.targetSize + (rJitter - 1/2) * 10 }

/-- The shrink formula of the animation tick (lines 711-716):
`(settings.targetSize + 20) * max(0.3, 1 − (age/maxAge)·0.7)`. -/
def shrunkSize (settingsTargetSize age maxAge : ℚ) : ℚ :=
  (settingsTargetSize + 20) * max (3/10) (1 - age / maxAge * (7/10))

/-- The shrinking branch of the animation tick applied to one target. -/
def animateShrink (settingsTargetSize : ℚ) (now : ℕ) (maxAge : ℚ)
    (t : Target) : Target :=
  if t.shrinking then
    { t with size := shrunkSize settingsTargetSize ((now : ℚ) - (t.createdAt : ℚ)) maxAge }
  else t

/-- Source `accuracy` as computed by `endGame` (lines 596-597). -/
def sessionAccuracy (stats : GameStats) : ℚ :=
  let totalTargets := stats.targetsHit + stats.targetsMissed
  if totalTargets > 0 then ((stats.targetsHit : ℚ) / (totalTargets : ℚ)) * 100 else 0

/-- Mean reaction time as computed by `endGame` (lines 598-600). -/
def avgReactionTime (stats : GameStats) : ℚ :=
  if stats.reactionTimes.length > 0 then
    ((stats.reactionTimes.foldl (fun a b => a + b) 0 : ℕ) : ℚ) / (stats.reactionTimes.length : ℚ)
  else 0

/-- The record handed to `saveSession` (argument shape of the Convex
mutation, matching the `aimSessions` table of `src/convex/schema.ts`). -/
structure SessionSummary where
  gameMode : GameMode
  score : ℤ
  accuracy : ℚ
  averageReactionTime : ℚ
  targetsHit : ℕ
  targetsMissed : ℕ
  duration : ℕ
  centerHits : ℕ
  ringHits : ℕ
  edgeHits : ℕ
  settingsTargetSize : ℚ
  settingsTargetSpeed : ℤ
  settingsGameTime : ℕ
deriving DecidableEq, Repr

/-- A stored `aimSessions` row: the summary tagged with the user id. -/
structure SavedSession where
  userId : ℕ
  record : SessionSummary
deriving DecidableEq, Repr

/-- The `saveSession` mutation handler (`src/unnamed/part_000`, lines 23-33):
throws when there is no authenticated user id, otherwise inserts the row. -/
def saveSessionHandler (userId : Option ℕ) (args : SessionSummary) :
    Except String SavedSession :=
  match userId with
  | none => Except.error ("Must be logged in to save session")
  | some uid => Except.ok { userId := uid, record := args }

/-- The summary built inside `endGame` (lines 602-619); note `duration` is
the configured `settings.gameTime`, not the elapsed time. -/
def buildSummary (mode : GameMode) (settings : GameSettings)
    (stats : GameStats) : SessionSummary :=
  { gameMode := mode,
    score := stats.score,
    accuracy := sessionAccuracy stats,
    averageReactionTime := avgReactionTime stats,
    targetsHit := stats.targetsHit,
    targetsMissed := stats.targetsMissed,
    duration := settings.gameTime,
    centerHits := stats.centerHits,
    ringHits := stats.ringHits,
    edgeHits := stats.edgeHits,
    settingsTargetSize := settings.targetSize,
    settingsTargetSpeed := settings.targetSpeed,
    settingsGameTime := settings.gameTime }

/-- Result of `endGame`: the new engine state, the summary it assembled,
the persistence outcome, and the toast notification shown. -/
structure EndGameResult where
  state : EngineState
  summary : SessionSummary
  saveResult : Except String SavedSession
  toast : String
deriving Repr

/-- Source `endGame` (lines 592-626): stop playing, clear the targets, build the
summary, attempt the persistence write, and surface the outcome as a toast;
a failed write changes nothing else (no rollback of the in-memory stats). -/
def endGame (userId : Option ℕ) (mode : GameMode) (settings : GameSettings)
    (st : EngineState) : EndGameResult :=
  let summary := buildSummary mode settings st.stats
  let saveResult := saveSessionHandler userId summary
  { state := { st with isPlaying := false, targets := [] },
    summary := summary,
    saveResult := saveResult,
    toast := match saveResult with
      | Except.ok _ => "Game saved!"
      | Except.error _ => "Failed to save game session" }

/-- Source `stopGame` (lines 588-590) just awaits `endGame`. -/
def stopGame (userId : Option ℕ) (mode : GameMode) (settings : GameSettings)
    (st : EngineState) : EndGameResult :=
  endGame userId mode settings st

/-- The three kinds of statistics-mutating events of a running session,
at the granularity of one `setGameStats` updater application: a scored hit
target, an active miss click, and a passive target expiry. -/
inductive StatEvent
  | hitEvent (score : ℤ) (reactionTime : ℕ) (zone : HitZone)
  | activeMiss (distance : ℚ) (direction : ShotDirection)
  | passiveExpiry
deriving DecidableEq, Repr

/-- Apply one event's updater. -/
def applyEvent (mode : GameMode) (stats : GameStats) : StatEvent → GameStats
  | StatEvent.hitEvent score rt zone => hitUpdate stats score rt zone
  | StatEvent.activeMiss d dir => missUpdate mode stats d dir
  | StatEvent.passiveExpiry => expiryUpdate stats

/-- Run a session's event sequence from a starting statistics record. -/
def runEvents (mode : GameMode) (stats : GameStats) (evs : List StatEvent) : GameStats :=
  evs.foldl (applyEvent mode) stats

/-- Number of passive expiries in an event sequence. -/
def countExpiries (evs : List StatEvent) : ℕ :=
  evs.countP (fun e => decide (e = StatEvent.passiveExpiry))

/-- Number of active misses in an event sequence. -/
def countActiveMisses (evs : List StatEvent) : ℕ :=
  evs.countP (fun e => match e with
    | StatEvent.activeMiss _ _ => true
    | _ => false)

/-- The distances of the active misses of an event sequence, in order. -/
def missDistances (evs : List StatEvent) : List ℚ :=
  evs.filterMap (fun e => match e with
    | StatEvent.activeMiss d _ => some d
    | _ => none)

/-- C6: with radius = s/2, the zone is Center iff d ≤ 0.25·radius, Ring iff
0.25·radius < d ≤ 0.6·radius, Edge otherwise (so the zones nest by radius
fraction), and the multipliers satisfy Center 2.0 > Ring 1.5 > Edge 1.0. -/
theorem C6_zone_thresholds_and_multipliers (d s : ℚ) (hd : 0 ≤ d) (hs : 0 < s) :
    (getHitZone d s = HitZone.center ↔ d ≤ (1/4) * (s/2))
    ∧ (getHitZone d s = HitZone.ring ↔ (1/4) * (s/2) < d ∧ d ≤ (3/5) * (s/2))
    ∧ (getHitZone d s = HitZone.edge ↔ (3/5) * (s/2) < d)
    ∧ getScoreMultiplier HitZone.center = 2
    ∧ getScoreMultiplier HitZone.ring = 3/2
    ∧ getScoreMultiplier HitZone.edge = 1
    ∧ getScoreMultiplier HitZone.ring < getScoreMultiplier HitZone.center
    ∧ getScoreMultiplier HitZone.edge < getScoreMultiplier HitZone.ring := by
  refine ⟨?_, ?_, ?_, rfl, rfl, rfl, by norm_num [getScoreMultiplier], by norm_num [getScoreMultiplier]⟩
  · unfold getHitZone
    dsimp only
    split_ifs with h1 h2 <;> simp <;> linarith
  · unfold getHitZone
    dsimp only
    split_ifs with h1 h2 <;> simp
    · intro h
      linarith
    · exact ⟨by linarith, by linarith⟩
    · intro h
      linarith
  · unfold getHitZone
    dsimp only
    split_ifs with h1 h2 <;> simp <;> linarith

/-- Witness for C6 at d = 1, s = 10 (a Center hit: 1 ≤ 0.25·5). -/
theorem C6_witness :
    getHitZone 1 10 = HitZone.center ∧ ((1:ℚ) ≤ (1/4) * (10/2)) ∧
      (getHitZone 1 10 = HitZone.center ↔ (1:ℚ) ≤ (1/4) * (10/2)) :=
  ⟨by norm_num [getHitZone], by norm_num,
    (C6_zone_thresholds_and_multipliers 1 10 (by norm_num) (by norm_num)).1⟩

/-- C5: for every hit, the awarded score is `floor(base · zoneMultiplier)`,
with the mode-specific base formulas of the claim; in particular the Classic
100 ms Center hit awards 290 and the Precision 250 ms / size-40 / Ring hit
with settings.targetSize 50 awards 525. -/
theorem C5_score_formulas :
    (∀ (sTS : ℚ) (rt : ℕ) (t : Target) (zone : HitZone),
      awardedScore GameMode.speed sTS rt t zone =
        Int.floor ((((max (150 - ((rt / 8 : ℕ) : ℤ)) 20 : ℤ) : ℚ) +
          (if jsTruthy t.velocityX || jsTruthy t.velocityY then (50:ℚ) else 0)) *
          getScoreMultiplier zone))
    ∧ (∀ (sTS : ℚ) (rt : ℕ) (t : Target) (zone : HitZone),
      awardedScore GameMode.precision sTS rt t zone =
        Int.floor ((max 0 ((sTS - t.size) * 5) +
          (if rt < 300 then (300:ℚ) else if rt < 600 then 200 else 100)) *
          getScoreMultiplier zone))
    ∧ (∀ (sTS : ℚ) (rt : ℕ) (t : Target) (zone : HitZone),
      awardedScore GameMode.classic sTS rt t zone =
        Int.floor ((((max (150 - ((rt / 20 : ℕ) : ℤ)) 25 : ℤ) : ℚ)) *
          getScoreMultiplier zone))
    ∧ awardedScore GameMode.classic 50 100
        { id := 0, x := 0, y := 0, size := 50, createdAt := 0,
          velocityX := none, velocityY := none, shrinking := false }
        HitZone.center = 290
    ∧ awardedScore GameMode.precision 50 250
        { id := 0, x := 0, y := 0, size := 40, createdAt := 0,
          velocityX := none, velocityY := none, shrinking := true }
        HitZone.ring = 525 := by
  refine ⟨fun sTS rt t zone => rfl, fun sTS rt t zone => ?_, fun sTS rt t zone => rfl, ?_, ?_⟩
  · unfold awardedScore getScoreForMode
    dsimp only
    rw [add_comm]
  · unfold awardedScore getScoreForMode getScoreMultiplier
    norm_num
  · unfold awardedScore getScoreForMode getScoreMultiplier
    norm_num

/-- C8: a Precision (shrinking) target with base diameter `baseSize + 20`
and lifetime `L = targetDuration + 1000` has size
`(baseSize+20)·max(0.3, 1 − 0.7·a/L)` at age `a`: full size at age 0,
`0.3·(baseSize+20)` at age `L`, and never below 30% of the original. -/
theorem C8_shrink_formula (s : ℚ) (ts : ℤ) (a : ℚ) (hs : 0 ≤ s) (hts : 0 ≤ ts) :
    ((getTargetLifetime GameMode.precision ts : ℤ) : ℚ) = (ts : ℚ) + 1000
    ∧ shrunkSize s a ((ts : ℚ) + 1000) =
        (s + 20) * max (3/10) (1 - (7/10) * (a / ((ts : ℚ) + 1000)))
    ∧ shrunkSize s 0 ((ts : ℚ) + 1000) = s + 20
    ∧ shrunkSize s ((ts : ℚ) + 1000) ((ts : ℚ) + 1000) = (3/10) * (s + 20)
    ∧ (3/10) * (s + 20) ≤ shrunkSize s a ((ts : ℚ) + 1000) := by
  have hL : (0:ℚ) < (ts : ℚ) + 1000 := by
    have : (0:ℚ) ≤ (ts : ℚ) := by exact_mod_cast hts
    linarith
  refine ⟨?_, ?_, ?_, ?_, ?_⟩
  · unfold getTargetLifetime
    push_cast
    ring
  · unfold shrunkSize
    ring_nf
  · unfold shrunkSize
    norm_num
  · unfold shrunkSize
    rw [div_self (ne_of_gt hL)]
    norm_num
    ring
  · unfold shrunkSize
    have h20 : (0:ℚ) ≤ s + 20 := by linarith
    calc (3/10) * (s + 20) = (s + 20) * (3/10) := by ring
    _ ≤ (s + 20) * max (3/10) (1 - a / ((ts : ℚ) + 1000) * (7/10)) :=
        mul_le_mul_of_nonneg_left (le_max_left _ _) h20

/-- Witness for C8 at baseSize 50, targetDuration 2000 ms, age 1500 ms,
together with a concrete evaluation at age = lifetime. -/
theorem C8_witness :
    ((0:ℚ) ≤ 50 ∧ (0:ℤ) ≤ 2000 ∧
      shrunkSize 50 0 ((2000:ℚ) + 1000) = 70 ∧
      shrunkSize 50 3000 ((2000:ℚ) + 1000) = 21) ∧
    (3/10) * ((50:ℚ) + 20) ≤ shrunkSize 50 1500 (((2000:ℤ) : ℚ) + 1000) := by
  constructor
  · refine ⟨by norm_num, by norm_num, ?_, ?_⟩
    · unfold shrunkSize
      norm_num
    · unfold shrunkSize
      norm_num
  · exact (C8_shrink_formula 50 2000 1500 (by norm_num) (by norm_num)).2.2.2.2

/-- C9: the persistence write rejects exactly when there is no authenticated
identity, and a failed write leaves the session Ended with the in-memory
statistics untouched — the failure is surfaced only as a toast notification. -/
theorem C9_persistence_failure_is_nonfatal
    (userId : Option ℕ) (mode : GameMode) (settings : GameSettings)
    (st : EngineState) (args : SessionSummary) :
    ((saveSessionHandler userId args).isOk = userId.isSome)
    ∧ saveSessionHandler none args = Except.error ("Must be logged in to save session")
    ∧ (endGame userId mode settings st).state.isPlaying = false
    ∧ (endGame userId mode settings st).state.stats = st.stats
    ∧ (endGame userId mode settings st).state.targets = []
    ∧ (endGame none mode settings st).toast = "Failed to save game session"
    ∧ (∀ uid : ℕ, (endGame (some uid) mode settings st).toast = "Game saved!") := by
  refine ⟨?_, rfl, rfl, rfl, rfl, rfl, fun uid => rfl⟩
  cases userId <;> rfl

/-- C10: the persisted summary's `duration` is always the configured
`settings.gameTime` — both when the countdown ends the game and when it is
stopped early (`stopGame` is `endGame` under another trigger), regardless of
how much time was actually played. -/
theorem C10_duration_is_configured_game_time
    (userId : Option ℕ) (mode : GameMode) (settings : GameSettings)
    (st : EngineState) :
    (endGame userId mode settings st).summary.duration = settings.gameTime
    ∧ stopGame userId mode settings st = endGame userId mode settings st
    ∧ (∀ stats : GameStats, (buildSummary mode settings stats).duration = settings.gameTime) :=
  ⟨rfl, rfl, fun stats => rfl⟩

lemma runEvents_nil (mode : GameMode) (stats : GameStats) :
    runEvents mode stats [] = stats := rfl

lemma runEvents_cons (mode : GameMode) (stats : GameStats) (e : StatEvent)
    (evs : List StatEvent) :
    runEvents mode stats (e :: evs) = runEvents mode (applyEvent mode stats e) evs := rfl

/-- Counting invariant of the stats updaters: every hit adds one to both
`targetsHit` and `totalShots`; every active miss adds one to `totalShots` and
1 (or 2 in precision mode) to `targetsMissed`; every passive expiry adds one
to `targetsMissed` only. -/
lemma runEvents_count_invariant (mode : GameMode) (evs : List StatEvent) :
    ∀ stats : GameStats,
      (runEvents mode stats evs).targetsHit + (runEvents mode stats evs).targetsMissed
          + stats.totalShots
        = (runEvents mode stats evs).totalShots + countExpiries evs
          + (if mode = GameMode.precision then countActiveMisses evs else 0)
          + stats.targetsHit + stats.targetsMissed := by
  induction evs with
  | nil =>
      intro stats
      by_cases hm : mode = GameMode.precision <;>
        simp [runEvents, countExpiries, countActiveMisses, hm] <;> omega
  | cons e evs ih =>
      intro stats
      rw [runEvents_cons]
      have h := ih (applyEvent mode stats e)
      cases e with
      | hitEvent sc rt zone =>
          by_cases hm : mode = GameMode.precision <;>
            simp [applyEvent, hitUpdate, countExpiries, countActiveMisses,
              List.countP_cons, hm] at h ⊢ <;> omega
      | activeMiss d dir =>
          by_cases hm : mode = GameMode.precision <;>
            simp [applyEvent, missUpdate, countExpiries, countActiveMisses,
              List.countP_cons, hm] at h ⊢ <;> omega
      | passiveExpiry =>
          by_cases hm : mode = GameMode.precision <;>
            simp [applyEvent, expiryUpdate, countExpiries, countActiveMisses,
              List.countP_cons, hm] at h ⊢ <;> omega

lemma sessionAccuracy_bounds (stats : GameStats) :
    0 ≤ sessionAccuracy stats ∧ sessionAccuracy stats ≤ 100 := by
  unfold sessionAccuracy
  dsimp only
  split_ifs with h
  · have htot : (0:ℚ) < ((stats.targetsHit + stats.targetsMissed : ℕ) : ℚ) := by
      exact_mod_cast h
    have hle : ((stats.targetsHit : ℕ) : ℚ) ≤ ((stats.targetsHit + stats.targetsMissed : ℕ) : ℚ) := by
      exact_mod_cast Nat.le_add_right _ _
    have hnn : (0:ℚ) ≤ ((stats.targetsHit : ℕ) : ℚ) := by positivity
    have hdiv : ((stats.targetsHit : ℕ) : ℚ) / ((stats.targetsHit + stats.targetsMissed : ℕ) : ℚ) ≤ 1 :=
      (div_le_one htot).mpr hle
    constructor
    · positivity
    · nlinarith
  · norm_num

/-- C3 counterexample: a Precision-mode session consisting of one active
miss ends with `targetsHit + targetsMissed = 2` but
`totalShots + passiveExpiries = 1`, refuting the claimed identity
"in every mode". -/
theorem C3_counterexample :
    ¬ ((runEvents GameMode.precision (initialStats 0)
          [StatEvent.activeMiss 5 ShotDirection.overshoot]).targetsHit
        + (runEvents GameMode.precision (initialStats 0)
            [StatEvent.activeMiss 5 ShotDirection.overshoot]).targetsMissed
      = (runEvents GameMode.precision (initialStats 0)
            [StatEvent.activeMiss 5 ShotDirection.overshoot]).totalShots
        + countExpiries [StatEvent.activeMiss 5 ShotDirection.overshoot]) := by
  simp [runEvents, applyEvent, missUpdate, initialStats, countExpiries]

/-- C3 amended: `targetsHit + targetsMissed` equals
`totalShots + passiveExpiries` plus, in Precision mode only, one extra count
per active miss (the penalty there is 2); and the session-end accuracy
always lies in [0, 100]. -/
theorem C3_accounting_identity (mode : GameMode) (evs : List StatEvent) (startTime : ℕ) :
    ((runEvents mode (initialStats startTime) evs).targetsHit
        + (runEvents mode (initialStats startTime) evs).targetsMissed
      = (runEvents mode (initialStats startTime) evs).totalShots
        + countExpiries evs
        + (if mode = GameMode.precision then countActiveMisses evs else 0))
    ∧ (∀ stats : GameStats,
        0 ≤ sessionAccuracy stats ∧ sessionAccuracy stats ≤ 100) := by
  constructor
  · have h := runEvents_count_invariant mode evs (initialStats startTime)
    have h0a : (initialStats startTime).totalShots = 0 := rfl
    have h0b : (initialStats startTime).targetsHit = 0 := rfl
    have h0c : (initialStats startTime).targetsMissed = 0 := rfl
    rw [h0a, h0b, h0c] at h
    omega
  · exact sessionAccuracy_bounds

/-- Mean invariant: over an event sequence with no passive expiries, in a
non-Precision mode, `targetsMissed` counts exactly the active misses and
`averageMissDistance · targetsMissed` accumulates the sum of their distances. -/
lemma runEvents_mean_invariant (mode : GameMode) (hmode : mode ≠ GameMode.precision)
    (evs : List StatEvent) (hev : ∀ e ∈ evs, e ≠ StatEvent.passiveExpiry) :
    ∀ stats : GameStats,
      (runEvents mode stats evs).targetsMissed
          = stats.targetsMissed + (missDistances evs).length
      ∧ (runEvents mode stats evs).averageMissDistance
            * (((runEvents mode stats evs).targetsMissed : ℕ) : ℚ)
          = stats.averageMissDistance * ((stats.targetsMissed : ℕ) : ℚ)
            + (missDistances evs).sum := by
  induction evs with
  | nil =>
      intro stats
      simp [runEvents, missDistances]
  | cons e evs ih =>
      intro stats
      have hev' : ∀ e ∈ evs, e ≠ StatEvent.passiveExpiry := fun x hx => hev x (List.mem_cons_of_mem _ hx)
      rw [runEvents_cons]
      cases e with
      | hitEvent sc rt zone =>
          have h := ih hev' (applyEvent mode stats (StatEvent.hitEvent sc rt zone))
          simpa [applyEvent, hitUpdate, missDistances] using h
      | activeMiss d dir =>
          have h := ih hev' (applyEvent mode stats (StatEvent.activeMiss d dir))
          have hpen : (if mode = GameMode.precision then (2:ℕ) else 1) = 1 := by
            simp [hmode]
          obtain ⟨h1, h2⟩ := h
          simp only [applyEvent, missUpdate, hpen, missDistances, List.filterMap_cons] at h1 h2 ⊢
          constructor
          · rw [h1]
            simp
            omega
          · rw [h2]
            have hm1 : (((stats.targetsMissed + 1 : ℕ) : ℚ)) ≠ 0 := by
              push_cast
              positivity
            have key : (stats.averageMissDistance * ((stats.targetsMissed : ℕ) : ℚ) + d) /
                  (((stats.targetsMissed : ℕ) : ℚ) + 1) * (((stats.targetsMissed + 1 : ℕ) : ℚ))
                = stats.averageMissDistance * ((stats.targetsMissed : ℕ) : ℚ) + d := by
              push_cast
              field_simp
            push_cast at key ⊢
            rw [key]
            simp [List.sum_cons]
            ring
      | passiveExpiry =>
          exact absurd rfl (hev StatEvent.passiveExpiry (List.mem_cons_self _ _))

/-- C2 counterexample: a passive expiry interleaved before a single active
miss of distance 10 leaves `averageMissDistance = 5` instead of the
arithmetic mean 10 of the miss distances, because the update weights the
old mean by the full `targetsMissed` count (which includes expiries). -/
theorem C2_counterexample :
    (runEvents GameMode.classic (initialStats 0)
        [StatEvent.passiveExpiry, StatEvent.activeMiss 10 ShotDirection.overshoot]).averageMissDistance = 5
    ∧ (runEvents GameMode.classic (initialStats 0)
        [StatEvent.passiveExpiry, StatEvent.activeMiss 10 ShotDirection.overshoot]).averageMissDistance ≠ 10 := by
  constructor <;>
    · simp [runEvents, applyEvent, missUpdate, expiryUpdate, initialStats]
      norm_num

/-- C2 amended: within a session whose stat events are hits and active
misses only (no passive expiries) in a non-Precision mode, the stored
`averageMissDistance` after the misses d1..dk equals their arithmetic mean,
regardless of ordering and of interleaved hits.  (With passive expiries or
the Precision penalty of 2, `targetsMissed` over-weights the old mean and
the property fails — see the counterexample.) -/
theorem C2_mean_of_active_misses (mode : GameMode) (evs : List StatEvent) (startTime : ℕ)
    (hmode : mode ≠ GameMode.precision)
    (hev : ∀ e ∈ evs, e ≠ StatEvent.passiveExpiry)
    (hk : missDistances evs ≠ []) :
    (runEvents mode (initialStats startTime) evs).averageMissDistance
      = (missDistances evs).sum / ((missDistances evs).length : ℚ) := by
  obtain ⟨h1, h2⟩ := runEvents_mean_invariant mode hmode evs hev (initialStats startTime)
  have h0m : (initialStats startTime).targetsMissed = 0 := rfl
  have h0a : (initialStats startTime).averageMissDistance = 0 := rfl
  rw [h0m] at h1
  rw [h0m, h0a, h1] at h2
  have hk0 : 0 < (missDistances evs).length := List.length_pos.mpr hk
  have hkQ : (((missDistances evs).length : ℕ) : ℚ) ≠ 0 := by
    exact_mod_cast Nat.pos_iff_ne_zero.mp hk0
  rw [eq_div_iff hkQ]
  simpa using h2

/-- Witness for C2: classic mode, misses of distance 4 and 10 with a hit
interleaved → mean 7. -/
theorem C2_witness :
    (runEvents GameMode.classic (initialStats 0)
        [StatEvent.activeMiss 4 ShotDirection.overshoot,
         StatEvent.hitEvent 100 120 HitZone.center,
         StatEvent.activeMiss 10 ShotDirection.undershoot]).averageMissDistance
      = (missDistances
          [StatEvent.activeMiss 4 ShotDirection.overshoot,
           StatEvent.hitEvent 100 120 HitZone.center,
           StatEvent.activeMiss 10 ShotDirection.undershoot]).sum /
        ((missDistances
          [StatEvent.activeMiss 4 ShotDirection.overshoot,
           StatEvent.hitEvent 100 120 HitZone.center,
           StatEvent.activeMiss 10 ShotDirection.undershoot]).length : ℚ)
    ∧ (missDistances
          [StatEvent.activeMiss 4 ShotDirection.overshoot,
           StatEvent.hitEvent 100 120 HitZone.center,
           StatEvent.activeMiss 10 ShotDirection.undershoot]).sum /
        ((missDistances
          [StatEvent.activeMiss 4 ShotDirection.overshoot,
           StatEvent.hitEvent 100 120 HitZone.center,
           StatEvent.activeMiss 10 ShotDirection.undershoot]).length : ℚ) = 7 := by
  constructor
  · exact C2_mean_of_active_misses GameMode.classic _ 0 (by decide)
      (by
        intro e he
        fin_cases he <;> decide)
      (by
        simp [missDistances])
  · simp [missDistances]
    norm_num

/-- The click filter keeps exactly the targets whose radius does not cover
the click point. -/
lemma processTargets_kept (mode : GameMode) (sTS : ℚ) (now : ℕ) (cx cy : ℚ)
    (ts : List Target) : ∀ (stats : GameStats) (effs : List HitEffect),
    (processTargets mode sTS now cx cy ts stats effs).kept
      = ts.filter (fun t => !(hitTest cx cy t)) := by
  induction ts with
  | nil => intro stats effs; simp [processTargets]
  | cons t ts ih =>
      intro stats effs
      by_cases h : hitTest cx cy t <;> simp [processTargets, h, ih]

/-- The click registers a hit iff some live target's radius covers the click. -/
lemma processTargets_hitTarget (mode : GameMode) (sTS : ℚ) (now : ℕ) (cx cy : ℚ)
    (ts : List Target) : ∀ (stats : GameStats) (effs : List HitEffect),
    (processTargets mode sTS now cx cy ts stats effs).hitTarget
      = ts.any (fun t => hitTest cx cy t) := by
  induction ts with
  | nil => intro stats effs; simp [processTargets]
  | cons t ts ih =>
      intro stats effs
      by_cases h : hitTest cx cy t <;> simp [processTargets, h, ih]

/-- Each covering target contributes one to `targetsHit` during the pass. -/
lemma processTargets_targetsHit (mode : GameMode) (sTS : ℚ) (now : ℕ) (cx cy : ℚ)
    (ts : List Target) : ∀ (stats : GameStats) (effs : List HitEffect),
    (processTargets mode sTS now cx cy ts stats effs).stats.targetsHit
      = stats.targetsHit + ts.countP (fun t => hitTest cx cy t) := by
  induction ts with
  | nil => intro stats effs; simp [processTargets]
  | cons t ts ih =>
      intro stats effs
      by_cases h : hitTest cx cy t <;>
        simp [processTargets, h, ih, hitUpdate, List.countP_cons] <;> omega

/-- Each covering target contributes one to `totalShots` during the pass. -/
lemma processTargets_totalShots (mode : GameMode) (sTS : ℚ) (now : ℕ) (cx cy : ℚ)
    (ts : List Target) : ∀ (stats : GameStats) (effs : List HitEffect),
    (processTargets mode sTS now cx cy ts stats effs).stats.totalShots
      = stats.totalShots + ts.countP (fun t => hitTest cx cy t) := by
  induction ts with
  | nil => intro stats effs; simp [processTargets]
  | cons t ts ih =>
      intro stats effs
      by_cases h : hitTest cx cy t <;>
        simp [processTargets, h, ih, hitUpdate, List.countP_cons] <;> omega

/-- The pass never touches `targetsMissed`. -/
lemma processTargets_targetsMissed (mode : GameMode) (sTS : ℚ) (now : ℕ) (cx cy : ℚ)
    (ts : List Target) : ∀ (stats : GameStats) (effs : List HitEffect),
    (processTargets mode sTS now cx cy ts stats effs).stats.targetsMissed
      = stats.targetsMissed := by
  induction ts with
  | nil => intro stats effs; simp [processTargets]
  | cons t ts ih =>
      intro stats effs
      by_cases h : hitTest cx cy t <;> simp [processTargets, h, ih, hitUpdate]

/-- The pass never touches `averageMissDistance`. -/
lemma processTargets_avgMiss (mode : GameMode) (sTS : ℚ) (now : ℕ) (cx cy : ℚ)
    (ts : List Target) : ∀ (stats : GameStats) (effs : List HitEffect),
    (processTargets mode sTS now cx cy ts stats effs).stats.averageMissDistance
      = stats.averageMissDistance := by
  induction ts with
  | nil => intro stats effs; simp [processTargets]
  | cons t ts ih =>
      intro stats effs
      by_cases h : hitTest cx cy t <;> simp [processTargets, h, ih, hitUpdate]

/-- The pass never touches `score` when no target is hit; more precisely it
leaves the whole statistics record unchanged on a miss pass. -/
lemma processTargets_all_miss (mode : GameMode) (sTS : ℚ) (now : ℕ) (cx cy : ℚ)
    (ts : List Target) : ∀ (stats : GameStats) (effs : List HitEffect),
    ts.any (fun t => hitTest cx cy t) = false →
    (processTargets mode sTS now cx cy ts stats effs).stats = stats
    ∧ (processTargets mode sTS now cx cy ts stats effs).hitEffects = effs := by
  induction ts with
  | nil => intro stats effs _; exact ⟨rfl, rfl⟩
  | cons t ts ih =>
      intro stats effs hno
      simp [List.any_cons] at hno
      obtain ⟨h1, h2⟩ := hno
      have := ih stats effs (by simpa using h2)
      simpa [processTargets, h1] using this

/-- C4 counterexample: two overlapping live targets and a click inside both
of their radii — the click removes and scores BOTH targets (`targetsHit`
rises by 2 and the live set empties), refuting "a single click removes and
scores at most one target (the nearest)". -/
theorem C4_counterexample :
    (handleCanvasClick (fun q => q) (fun _ _ => (0:ℚ)) GameMode.classic 50 0 5 0
        { isPlaying := true,
          targets := [{ id := 1, x := 0, y := 0, size := 30, createdAt := 0,
                        velocityX := none, velocityY := none, shrinking := false },
                      { id := 2, x := 10, y := 0, size := 30, createdAt := 0,
                        velocityX := none, velocityY := none, shrinking := false }],
          stats := initialStats 0, hitEffects := [], missEffects := [],
          lastShotAnalysis := none }).stats.targetsHit = 2
    ∧ (handleCanvasClick (fun q => q) (fun _ _ => (0:ℚ)) GameMode.classic 50 0 5 0
        { isPlaying := true,
          targets := [{ id := 1, x := 0, y := 0, size := 30, createdAt := 0,
                        velocityX := none, velocityY := none, shrinking := false },
                      { id := 2, x := 10, y := 0, size := 30, createdAt := 0,
                        velocityX := none, velocityY := none, shrinking := false }],
          stats := initialStats 0, hitEffects := [], missEffects := [],
          lastShotAnalysis := none }).targets = [] := by
  have h1 : hitTest 5 0 { id := 1, x := 0, y := 0, size := 30, createdAt := 0, velocityX := none, velocityY := none, shrinking := false } = true := by
    norm_num [hitTest, distSq]
  have h2 : hitTest 5 0 { id := 2, x := 10, y := 0, size := 30, createdAt := 0, velocityX := none, velocityY := none, shrinking := false } = true := by
    norm_num [hitTest, distSq]
  constructor
  · simp [handleCanvasClick, processTargets_hitTarget, processTargets_targetsHit,
      h1, h2, initialStats]
  · simp [handleCanvasClick, processTargets_hitTarget, processTargets_kept,
      h1, h2]

/-- C4 amended: a click resolved while playing removes exactly the set of
live targets whose own radius covers the click point (each removed target is
scored individually, so one click can score several targets, and a covering
target is hit even when it is not the Euclidean-nearest); the click is
processed as a miss (one miss effect appended) iff no live target covers the
click.  `analyzeShot` alone uses the Euclidean-nearest target, only for the
last-shot display and the miss classification. -/
theorem C4_click_removes_all_covering_targets
    (sqrtQ : ℚ → ℚ) (atan2deg : ℚ → ℚ → ℚ) (mode : GameMode) (sTS : ℚ)
    (now : ℕ) (cx cy : ℚ) (st : EngineState) (hplay : st.isPlaying = true) :
    (handleCanvasClick sqrtQ atan2deg mode sTS now cx cy st).targets
        = st.targets.filter (fun t => !(hitTest cx cy t))
    ∧ (handleCanvasClick sqrtQ atan2deg mode sTS now cx cy st).stats.targetsHit
        = st.stats.targetsHit + st.targets.countP (fun t => hitTest cx cy t)
    ∧ (handleCanvasClick sqrtQ atan2deg mode sTS now cx cy st).missEffects.length
        = st.missEffects.length
          + (if st.targets.any (fun t => hitTest cx cy t) then 0 else 1) := by
  unfold handleCanvasClick
  rw [hplay]
  by_cases hany : st.targets.any (fun t => hitTest cx cy t)
  · simp [hany, processTargets_hitTarget, processTargets_kept, processTargets_targetsHit]
  · simp [hany, processTargets_hitTarget, processTargets_kept, processTargets_targetsHit,
      missUpdate]

/-- Witness for C4 at a single covered target: the nearest (and only) target
is removed and scored once. -/
theorem C4_witness :
    ((handleCanvasClick (fun q => q) (fun _ _ => (0:ℚ)) GameMode.classic 50 0 5 0
        { isPlaying := true,
          targets := [{ id := 1, x := 0, y := 0, size := 30, createdAt := 0,
                        velocityX := none, velocityY := none, shrinking := false }],
          stats := initialStats 0, hitEffects := [], missEffects := [],
          lastShotAnalysis := none }).stats.targetsHit
      = (initialStats 0).targetsHit
        + List.countP (fun t => hitTest 5 0 t)
            [{ id := 1, x := 0, y := 0, size := 30, createdAt := 0,
               velocityX := none, velocityY := none, shrinking := false }])
    ∧ List.countP (fun t => hitTest 5 0 t)
        [{ id := 1, x := 0, y := 0, size := 30, createdAt := 0,
           velocityX := none, velocityY := none, shrinking := false }] = 1 := by
  constructor
  · exact (C4_click_removes_all_covering_targets (fun q => q) (fun _ _ => (0:ℚ))
      GameMode.classic 50 0 5 0
      { isPlaying := true,
        targets := [{ id := 1, x := 0, y := 0, size := 30, createdAt := 0,
                      velocityX := none, velocityY := none, shrinking := false }],
        stats := initialStats 0, hitEffects := [], missEffects := [],
        lastShotAnalysis := none } rfl).2.1
  · norm_num [hitTest, distSq]

/-- C1 counterexample: a click resolved while playing with no live targets
is NOT a no-op — `targetsMissed` and `totalShots` rise and a miss effect is
created (only the degenerate analysis and the absence of scoring match the
claim). -/
theorem C1_counterexample :
    (handleCanvasClick (fun q => q) (fun _ _ => (0:ℚ)) GameMode.classic 50 0 100 100
        { isPlaying := true, targets := [], stats := initialStats 0,
          hitEffects := [], missEffects := [],
          lastShotAnalysis := none }).stats.targetsMissed = 1
    ∧ (initialStats 0).targetsMissed = 0
    ∧ (handleCanvasClick (fun q => q) (fun _ _ => (0:ℚ)) GameMode.classic 50 0 100 100
        { isPlaying := true, targets := [], stats := initialStats 0,
          hitEffects := [], missEffects := [],
          lastShotAnalysis := none }).missEffects.length = 1 := by
  refine ⟨?_, rfl, ?_⟩ <;>
    simp [handleCanvasClick, analyzeShot, processTargets, missUpdate, initialStats]

/-- C1 amended: a click resolved while playing against an empty live-target
collection yields the degenerate analysis (distance 0, bearing 0, classified
hit), awards no score, creates no hit effect and leaves `targetsHit`,
`overshoots` and `undershoots` unchanged; but it is NOT a no-op: the miss
branch runs, so `targetsMissed` rises by the mode penalty (2 in Precision,
1 otherwise), `totalShots` rises by 1, `averageMissDistance` is re-averaged
with the degenerate distance 0 folded in, and one miss effect is created. -/
theorem C1_empty_targets_click
    (sqrtQ : ℚ → ℚ) (atan2deg : ℚ → ℚ → ℚ) (mode : GameMode) (sTS : ℚ)
    (now : ℕ) (cx cy : ℚ) (st : EngineState)
    (hplay : st.isPlaying = true) (hempty : st.targets = []) :
    analyzeShot sqrtQ atan2deg cx cy st.targets
        = { distance := 0, direction := ShotDirection.hit, angle := 0 }
    ∧ (handleCanvasClick sqrtQ atan2deg mode sTS now cx cy st).stats.score
        = st.stats.score
    ∧ (handleCanvasClick sqrtQ atan2deg mode sTS now cx cy st).stats.targetsHit
        = st.stats.targetsHit
    ∧ (handleCanvasClick sqrtQ atan2deg mode sTS now cx cy st).hitEffects
        = st.hitEffects
    ∧ (handleCanvasClick sqrtQ atan2deg mode sTS now cx cy st).stats.overshoots
        = st.stats.overshoots
    ∧ (handleCanvasClick sqrtQ atan2deg mode sTS now cx cy st).stats.undershoots
        = st.stats.undershoots
    ∧ (handleCanvasClick sqrtQ atan2deg mode sTS now cx cy st).stats.targetsMissed
        = st.stats.targetsMissed + (if mode = GameMode.precision then 2 else 1)
    ∧ (handleCanvasClick sqrtQ atan2deg mode sTS now cx cy st).stats.totalShots
        = st.stats.totalShots + 1
    ∧ (handleCanvasClick sqrtQ atan2deg mode sTS now cx cy st).stats.averageMissDistance
        = (st.stats.averageMissDistance * (st.stats.targetsMissed : ℚ))
            / ((st.stats.targetsMissed : ℚ) + 1)
    ∧ (handleCanvasClick sqrtQ atan2deg mode sTS now cx cy st).missEffects
        = st.missEffects ++ [{ x := cx, y := cy, createdAt := now, distance := 0,
                               direction := getDirectionText 0 }]
    ∧ (handleCanvasClick sqrtQ atan2deg mode sTS now cx cy st).targets = [] := by
  obtain ⟨pl, tg, stats, he, me, ls⟩ := st
  simp only at hplay hempty
  subst hplay
  subst hempty
  refine ⟨rfl, ?_, ?_, ?_, ?_, ?_, ?_, ?_, ?_, ?_, ?_⟩ <;>
    simp [handleCanvasClick, analyzeShot, processTargets, missUpdate]

/-- Witness for C1: classic mode, empty targets, click at (100,100). -/
theorem C1_witness :
    ((handleCanvasClick (fun q => q) (fun _ _ => (0:ℚ)) GameMode.classic 50 7 100 100
        { isPlaying := true, targets := [], stats := initialStats 0,
          hitEffects := [], missEffects := [],
          lastShotAnalysis := none }).stats.targetsMissed
      = (initialStats 0).targetsMissed
        + (if GameMode.classic = GameMode.precision then 2 else 1))
    ∧ ((if GameMode.classic = GameMode.precision then 2 else 1) = 1) := by
  constructor
  · exact (C1_empty_targets_click (fun q => q) (fun _ _ => (0:ℚ)) GameMode.classic 50 7 100 100
      { isPlaying := true, targets := [], stats := initialStats 0,
        hitEffects := [], missEffects := [], lastShotAnalysis := none }
      rfl rfl).2.2.2.2.2.2.1
  · decide

/-- C7 counterexample: the speed draw `Math.random() = 3/4 ∈ [0,1)` gives a
velocity of magnitude `50 + 0.75·100 = 125` px/s (here along the x axis),
which is outside the claimed range [50,100). -/
theorem C7_counterexample :
    (spawnTarget GameMode.speed
        { targetSize := 50, targetSpeed := 2000, gameTime := 30,
          soundEnabled := true, soundVolume := 7/10 } 0
        { width := 800, height := 600 } 0 0 0 (3/4) 0 1 0).velocityX = some 125
    ∧ (spawnTarget GameMode.speed
        { targetSize := 50, targetSpeed := 2000, gameTime := 30,
          soundEnabled := true, soundVolume := 7/10 } 0
        { width := 800, height := 600 } 0 0 0 (3/4) 0 1 0).velocityY = some 0
    ∧ ¬ ((125:ℚ)^2 + 0^2 < 100^2) := by
  refine ⟨?_, ?_, by norm_num⟩ <;> norm_num [spawnTarget]

/-- C7 amended: a Speed-mode spawn has diameter `max(20, targetSize − 15)`
and a velocity of squared magnitude `(50 + rSpeed·100)²`, i.e. speed
uniformly in [50,150) px/s (squared magnitude in [2500, 22500)) — not
[50,100); a Classic-mode spawn has diameter within ±5 px of
`settings.targetSize`, no velocity and no shrink flag. -/
theorem C7_spawn_shapes (settings : GameSettings) (now : ℕ) (bounds : CanvasBounds)
    (rId rX rY rSpeed rJitter cA sA : ℚ)
    (hr0 : 0 ≤ rSpeed) (hr1 : rSpeed < 1) (htrig : cA^2 + sA^2 = 1)
    (hj0 : 0 ≤ rJitter) (hj1 : rJitter < 1) :
    (spawnTarget GameMode.speed settings now bounds rId rX rY rSpeed rJitter cA sA).size
        = max 20 (settings.targetSize - 15)
    ∧ (∃ vx vy : ℚ,
        (spawnTarget GameMode.speed settings now bounds rId rX rY rSpeed rJitter cA sA).velocityX
            = some vx
        ∧ (spawnTarget GameMode.speed settings now bounds rId rX rY rSpeed rJitter cA sA).velocityY
            = some vy
        ∧ vx^2 + vy^2 = (50 + rSpeed * 100)^2
        ∧ 2500 ≤ vx^2 + vy^2 ∧ vx^2 + vy^2 < 22500)
    ∧ settings.targetSize - 5
        ≤ (spawnTarget GameMode.classic settings now bounds rId rX rY rSpeed rJitter cA sA).size
    ∧ (spawnTarget GameMode.classic settings now bounds rId rX rY rSpeed rJitter cA sA).size
        < settings.targetSize + 5
    ∧ (spawnTarget GameMode.classic settings now bounds rId rX rY rSpeed rJitter cA sA).velocityX
        = none
    ∧ (spawnTarget GameMode.classic settings now bounds rId rX rY rSpeed rJitter cA sA).velocityY
        = none
    ∧ (spawnTarget GameMode.classic settings now bounds rId rX rY rSpeed rJitter cA sA).shrinking
        = false := by
  have hmag : (cA * (50 + rSpeed * 100))^2 + (sA * (50 + rSpeed * 100))^2
      = (50 + rSpeed * 100)^2 := by
    linear_combination (50 + rSpeed * 100)^2 * htrig
  have hlow : (50:ℚ) ≤ 50 + rSpeed * 100 := by linarith
  have hhigh : 50 + rSpeed * 100 < 150 := by linarith
  refine ⟨rfl, ?_, ?_, ?_, rfl, rfl, rfl⟩
  · refine ⟨cA * (50 + rSpeed * 100), sA * (50 + rSpeed * 100), rfl, rfl, hmag, ?_, ?_⟩
    · rw [hmag]
      nlinarith
    · rw [hmag]
      nlinarith
  · show settings.targetSize - 5 ≤ settings.targetSize + (rJitter - 1/2) * 10
    nlinarith
  · show settings.targetSize + (rJitter - 1/2) * 10 < settings.targetSize + 5
    nlinarith

/-- Witness for C7 at rSpeed = 1/2 (speed 100, attainable only because the
true range is [50,150)), heading along the x axis, jitter 1/2. -/
theorem C7_witness :
    (0:ℚ) ≤ 1/2 ∧ (1/2 : ℚ) < 1 ∧ ((1:ℚ)^2 + 0^2 = 1)
    ∧ (spawnTarget GameMode.speed
        { targetSize := 50, targetSpeed := 2000, gameTime := 30,
          soundEnabled := true, soundVolume := 7/10 } 0
        { width := 800, height := 600 } 0 0 0 (1/2) (1/2) 1 0).size
        = max 20 ((50:ℚ) - 15) := by
  refine ⟨by norm_num, by norm_num, by norm_num, ?_⟩
  exact (C7_spawn_shapes
    { targetSize := 50, targetSpeed := 2000, gameTime := 30,
      soundEnabled := true, soundVolume := 7/10 } 0
    { width := 800, height := 600 } 0 0 0 (1/2) (1/2) 1 0
    (by norm_num) (by norm_num) (by norm_num) (by norm_num) (by norm_num)).1
